import Mathlib

/-!
Verification of the BIP (Band Interleaved by Pixel) chipper I/O engine of
`sarpy/io/complex/bip.py`.

The file is modelled at scalar granularity: a raster file is a function
`f : Nat -> Int` giving the scalar element stored `k` element slots after the
declared byte offset `data_offset`.  Every byte position the source code seeks
to has the form `data_offset + itemsize * k`, so this loses no information;
byte-level quantities (seek positions, strides) are additionally modelled
exactly where a claim speaks about bytes.

Machine scalars of the declared element type are represented by `Int`
(bit-identity of stored scalars is `Int` equality).
-/

set_option linter.unusedVariables false

namespace BIP

/-- A `(start, stop, step)` axis range as passed to `_read_raw_fun` /
`_read_memory_map` / `_read_file` after `_reorder_arguments`. -/
structure Rng where
  start : Int
  stop : Int
  step : Int
deriving DecidableEq

/-- Length of `numpy.arange(start, stop, step)`: `max 0 (ceil ((stop-start)/step))`.
The division is exercised only where all conventions for integer division
agree (quotient of a nonnegative numerator by a positive denominator, or a
clamp to zero). -/
def arangeLen (start stop step : Int) : Nat :=
  if 0 < step then ((stop - start + step - 1) / step).toNat
  else if step < 0 then ((start - stop + (-step) - 1) / (-step)).toNat
  else 0

/-- `numpy.arange(start, stop, step)` over the integers. -/
def arange (start stop step : Int) : List Int :=
  (List.range (arangeLen start stop step)).map (fun (j : Nat) => start + (j : Int) * step)

/-- Indices selected by the Python slice `start:stop:step` on an axis of
length `L`: negative endpoints are resolved by adding `L`, then clamped to
`[0, L]` (positive step) or `[-1, L-1]` (negative step), exactly as in the
Python slice semantics used by `numpy` basic indexing. -/
def pySliceIdx (L : Nat) (start stop step : Int) : List Int :=
  if 0 < step then
    arange (if start < 0 then max (start + L) 0 else min start L)
           (if stop < 0 then max (stop + L) 0 else min stop L) step
  else
    arange (if start < 0 then max (start + L) (-1) else min start ((L : Int) - 1))
           (if stop < 0 then max (stop + L) (-1) else min stop ((L : Int) - 1)) step

/-- Indices selected by the Python slice `start::step` with omitted stop and a
negative `step`: traversal proceeds from `start` down to and including
index `0`. -/
def pySliceOpenNeg (L : Nat) (start step : Int) : List Int :=
  arange (if start < 0 then max (start + L) (-1) else min start ((L : Int) - 1)) (-1) step

/-- Construction parameters of a `BIPChipper` as laid down by
`BIPChipper.__init__`: `shape0`/`shape1` are `data_size`, `bands` is
`self._bands` (the band count after any complex doubling), `itemsize` is
`numpy.dtype(self._data_type).itemsize` and `dataOffset` is
`self._data_offset` in bytes. -/
structure ChipperParams where
  shape0 : Nat
  shape1 : Nat
  bands : Nat
  itemsize : Nat
  dataOffset : Nat

/-- The memory map of `BIPChipper`: a C-ordered view of shape
`(shape0, shape1, bands)` over the file, so element `(r, c, b)` is the scalar
`(r*shape1 + c)*bands + b` slots after the data offset.  Materialise the
sub-view selected by two index lists (`numpy.array(view, dtype)` copies the
values unchanged). -/
def mmSlice (p : ChipperParams) (f : Nat → Int) (idx1 idx2 : List Int) :
    List (List (List Int)) :=
  idx1.map (fun r => idx2.map (fun c =>
    (List.range p.bands).map (fun b => f ((r.toNat * p.shape1 + c.toNat) * p.bands + b))))

/-- Per-axis index selection of `BIPChipper._read_memory_map`: the source
tests `stop == -1 and step < 0` for each of the two axes and uses the open
slice `start::step` for an axis satisfying it and the closed slice
`start:stop:step` otherwise (four branches, which is exactly this choice made
once per axis). -/
def memmapAxisIdx (L : Nat) (r : Rng) : List Int :=
  if r.stop = -1 ∧ r.step < 0 then pySliceOpenNeg L r.start r.step
  else pySliceIdx L r.start r.stop r.step

/-- `BIPChipper._read_memory_map(range1, range2)`. -/
def readMemoryMap (p : ChipperParams) (f : Nat → Int) (range1 range2 : Rng) :
    List (List (List Int)) :=
  mmSlice p f (memmapAxisIdx p.shape0 range1) (memmapAxisIdx p.shape1 range2)

/-- The byte position `get_row_location(rr, cc)` of `BIPChipper._read_file`:
`self._data_offset + rr*stride + cc*element_size` with
`element_size = itemsize * self._bands` and
`stride = element_size * self._shape[0]`. -/
def readFileSeekPos (p : ChipperParams) (rr cc : Int) : Int :=
  p.dataOffset + rr * ((p.itemsize * p.bands : Nat) * p.shape0) + cc * (p.itemsize * p.bands : Nat)

/-- `entries_per_row = abs(range1[1] - range1[0])` of `BIPChipper._read_file`. -/
def entriesPerRow (range1 : Rng) : Nat := (range1.stop - range1.start).natAbs

/-- The stepped flat subset `line[::step]` of a 1-D numpy array. -/
def pyStepList (l : List Int) (step : Int) : List Int :=
  if 0 < step then
    (List.range ((((l.length : Int) + step - 1) / step).toNat)).map
      (fun j => l.getD (j * step.toNat) 0)
  else if step < 0 then
    (List.range ((((l.length : Int) + (-step) - 1) / (-step)).toNat)).map
      (fun j => l.getD (l.length - 1 - j * (-step).toNat) 0)
  else []

/-- Failure modes of the manual read path, raised by numpy at run time. -/
inductive ReadError where
  /-- indexing `dim2array[0]` / `dim2array[-1]` on an empty index array -/
  | emptyIndex
  /-- `out[i, :, :] = line[::step]` where the flat right-hand side does not
  broadcast to the `(len(dim2array), bands)` destination -/
  | broadcastMismatch
deriving DecidableEq

/-- `BIPChipper._read_file(range1, range2)`.  Faithful to the source:
`element_size`/`stride` and `entries_per_row` are taken from the code as
written; `numpy.arange(rangeN)` is read as the arange of the triple; the
line read for each requested row starts at `get_row_location(row, col_begin)`
and covers `entries_per_row * bands` scalars; the assignment
`out[i, :, :] = line[::range2[2]]` follows numpy broadcasting: a flat source
of length `bands` is copied to every column, one of length 1 fills the whole
slot, and any other length raises. -/
def readFile (p : ChipperParams) (f : Nat → Int) (range1 range2 : Rng) :
    Except ReadError (List (List (List Int))) :=
  let dim1array := arange range1.start range1.stop range1.step
  let dim2array := arange range2.start range2.stop range2.step
  match (if 0 < range2.step then dim2array.head? else dim2array.getLast?) with
  | none => .error .emptyIndex
  | some col_begin =>
    let rows := dim1array.map (fun row =>
      let seekByte := readFileSeekPos p row col_begin
      let scalarIdx := ((seekByte - p.dataOffset) / p.itemsize).toNat
      let line := (List.range (entriesPerRow range1 * p.bands)).map (fun j => f (scalarIdx + j))
      pyStepList line range2.step)
    if rows.all (fun r => r.length == p.bands) then
      .ok (rows.map (fun r => dim2array.map (fun _ => r)))
    else if rows.all (fun r => r.length == 1) then
      .ok (rows.map (fun r => dim2array.map (fun _ => List.replicate p.bands (r.headD 0))))
    else .error .broadcastMismatch

/-- The complex-composition argument of `BIPChipper.__init__`
(`complex_type : callable|bool`), abstracted to its three shapes: the Python
value `False`, a callable transform, or the Python value `True`
(adjacent-band composition). -/
inductive ComplexMode where
  | noComposition
  | transform
  | adjacent
deriving DecidableEq

/-- The internal band count of `BIPChipper.__init__`:
`bands = int_func(bands_ip); if self._complex_type is not False: bands *= 2`. -/
def chipperBands (bands_ip : Nat) (complexType : ComplexMode) : Nat :=
  if complexType ≠ ComplexMode.noComposition then bands_ip * 2 else bands_ip

/-- Post-construction state of a `BIPChipper`: the raster parameters plus the
two storage-handle slots `self._memory_map` and `self._fid` (the slots are
modelled as option-valued tokens; the source never reassigns either slot after
`__init__`). -/
structure BIPChipperState where
  params : ChipperParams
  memory_map : Option Unit
  fid : Option Unit

/-- `BIPChipper.__init__` storage acquisition: both slots start as `None`; the
`numpy.memmap` attempt either succeeds (`mapOk = true`) or raises
`OverflowError`/`OSError`, in which case the handler opens the file and stores
the descriptor in `self._fid`. -/
def bipChipperInit (p : ChipperParams) (mapOk : Bool) : BIPChipperState :=
  if mapOk then ⟨p, some (), none⟩ else ⟨p, none, some ()⟩

/-- The two storage strategies. -/
inductive Backend where
  | mapped
  | manual
deriving DecidableEq

/-- The backend dispatched to by `BIPChipper._read_raw_fun`:
`if self._memory_map is not None: ... elif self._fid is not None: ...`
(and implicitly `None` when neither handle is set). -/
def chipperBackend (s : BIPChipperState) : Option Backend :=
  if s.memory_map.isSome then some Backend.mapped
  else if s.fid.isSome then some Backend.manual
  else none

/-- numpy element types by name, as compared through `dtype.name` in the
source. -/
inductive NPDType where
  | uint8
  | int16
  | uint16
  | int32
  | float32
  | float64
  | complex64
  | complex128
deriving DecidableEq

/-- `numpy.dtype(...).itemsize` in bytes. -/
def NPDType.itemsize : NPDType → Nat
  | .uint8 => 1
  | .int16 => 2
  | .uint16 => 2
  | .int32 => 4
  | .float32 => 4
  | .float64 => 8
  | .complex64 => 8
  | .complex128 => 16

/-- A dense 2-D numpy array handed to `BIPWriter.__call__`: its dtype tag,
its shape and its element values.  `re` holds the values of a real-typed
array; for a complex-typed array `re`/`im` hold the real and imaginary
component values (each component value is one machine scalar, represented as
an `Int`).  Arrays are modelled C-contiguous (the source re-copies a
non-contiguous input into C order before use, which leaves the element values
unchanged). -/
structure NDArr where
  dtype : NPDType
  h : Nat
  w : Nat
  re : Nat → Nat → Int
  im : Nat → Nat → Int

/-- The `complex_type` construction argument of `BIPWriter`: the Python value
`False`, a callable (modelled by its action on the array), or the Python value
`True`. -/
inductive ComplexTypeParam where
  | boolFalse
  | boolTrue
  | transform (t : NDArr → NDArr)

/-- Discriminator for `complex_type is True`. -/
def ComplexTypeParam.isTrue : ComplexTypeParam → Bool
  | .boolTrue => true
  | _ => false

/-- Discriminator for `callable(complex_type)`. -/
def ComplexTypeParam.isCallable : ComplexTypeParam → Bool
  | .transform _ => true
  | _ => false

/-- Discriminator for `complex_type is False`. -/
def ComplexTypeParam.isFalse : ComplexTypeParam → Bool
  | .boolFalse => true
  | _ => false

/-- The `ValueError`s `BIPWriter.__init__` can raise before any storage is
acquired. -/
inductive InitError where
  /-- `data_size` does not have length 2 -/
  | badDataSizeLength
  /-- an entry of `data_size` is negative -/
  | negativeDataSize
  /-- `complex_type is True` but `data_type` is not named `float32` -/
  | complexTrueNeedsFloat32
  /-- `complex_type` is callable but `data_type` is not `uint8`/`int16` -/
  | callableNeedsInt
deriving DecidableEq

/-- The validated construction parameters of a `BIPWriter`: `d0`/`d1` are
`self._data_size`, `shape3` records whether `self._shape` is the 3-D
`(d0, d1, 2)` form (any `complex_type` other than `False`) or the plain 2-D
`data_size`. -/
structure WriterCore where
  d0 : Nat
  d1 : Nat
  dataType : NPDType
  complexType : ComplexTypeParam
  dataOffset : Nat
  shape3 : Bool

/-- The validation prefix of `BIPWriter.__init__`, in source order: the
`data_size` length and sign checks, then (`complex_type` being a bool or a
callable by construction of `ComplexTypeParam`) the
`complex_type is True and self._data_type.name != 'float32'` check, then the
`callable(complex_type) and self._data_type.name not in ('uint8', 'int16')`
check, then the `self._shape` selection.  All of this precedes the
`numpy.memmap` / `open` attempt. -/
def bipWriterValidate (dataSize : List Int) (dataType : NPDType)
    (complexType : ComplexTypeParam) (dataOffset : Nat) : Except InitError WriterCore :=
  if dataSize.length ≠ 2 then .error .badDataSizeLength
  else if dataSize.getD 0 0 < 0 ∨ dataSize.getD 1 0 < 0 then .error .negativeDataSize
  else if complexType.isTrue ∧ dataType ≠ NPDType.float32 then .error .complexTrueNeedsFloat32
  else if complexType.isCallable ∧ dataType ≠ NPDType.uint8 ∧ dataType ≠ NPDType.int16 then
    .error .callableNeedsInt
  else .ok ⟨(dataSize.getD 0 0).toNat, (dataSize.getD 1 0).toNat, dataType, complexType,
            dataOffset, !complexType.isFalse⟩

/-- Post-construction state of a `BIPWriter`: validated parameters plus the
storage-handle slots `self._memory_map` and `self._fid`. -/
structure BIPWriterState where
  core : WriterCore
  memory_map : Option Unit
  fid : Option Unit

/-- The storage-acquisition suffix of `BIPWriter.__init__`: both slots start
as `None`; the `numpy.memmap(..., mode='r+')` attempt either succeeds or
raises, in which case the handler opens the file in `r+b` mode. -/
def writerOpen (c : WriterCore) (mapOk : Bool) : BIPWriterState :=
  if mapOk then ⟨c, some (), none⟩ else ⟨c, none, some ()⟩

/-- `BIPWriter.__init__` as a whole: validation, then storage acquisition.
A validation error propagates before any storage is touched, so the result is
then independent of `mapOk` and no writer state is produced. -/
def bipWriterInit (dataSize : List Int) (dataType : NPDType)
    (complexType : ComplexTypeParam) (dataOffset : Nat) (mapOk : Bool) :
    Except InitError BIPWriterState :=
  (bipWriterValidate dataSize dataType complexType dataOffset).map (fun c => writerOpen c mapOk)

/-- The backend a `BIPWriter._call` would use, read off the handle slots the
same way the dispatch `if self._memory_map is not None: ...` does. -/
def writerBackend (s : BIPWriterState) : Option Backend :=
  if s.memory_map.isSome then some Backend.mapped
  else if s.fid.isSome then some Backend.manual
  else none

/-- Errors a `BIPWriter.__call__` invocation can raise. -/
inductive CallError where
  /-- `ValueError`: the data (or transform output) dtype disagrees with the
  declared `data_type` -/
  | typeMismatch (expected got : NPDType)
  /-- `ValueError`: `complex_type is True` but the data is not
  complex64/complex128 -/
  | badComplexDtype (got : NPDType)
  /-- `IndexError`: three indices `[start1:stop1, start2:stop2, :]` applied to
  the 2-D memory map built when `complex_type is False` -/
  | indexError
deriving DecidableEq

/-- Whether an outcome is the dtype-disagreement `ValueError` (the spec's
`TypeMismatchError`). -/
def isTypeMismatch : Option CallError → Bool
  | some (CallError.typeMismatch _ _) => true
  | _ => false

/-- The mapped write `self._memory_map[start1:stop1, start2:stop2, :] = data`
on the 3-D map of shape `(d0, d1, 2)` built when `complex_type` is not
`False`: scalar slot `k` decodes to `(r, c, b)` with `r = k / (d1*2)`,
`c = (k % (d1*2)) / 2`, `b = k % 2`, and is overwritten when `(r, c)` lies in
the written window (windows are validated in bounds before `__call__`). -/
def writeMemoryMap3 (c : WriterCore) (s1 e1 s2 e2 : Nat) (data : Nat → Nat → Nat → Int)
    (f : Nat → Int) : Nat → Int :=
  fun k =>
    let r := k / (c.d1 * 2)
    let rem := k % (c.d1 * 2)
    if s1 ≤ r ∧ r < e1 ∧ r < c.d0 ∧ s2 ≤ rem / 2 ∧ rem / 2 < e2 then
      data (r - s1) (rem / 2 - s2) (rem % 2)
    else f k

/-- The manual branch of `BIPWriter._call`, at scalar granularity (all byte
quantities in the source are `itemsize` times the scalar quantities here):
`spp` is the per-pixel scalar count (`element_size / itemsize`), the initial
seek lands `spp*(d0*start1 + start2)` scalars after the data offset, a write
covering the whole first axis extent is one contiguous block, and otherwise
each of the `stop1-start1` rows of `stop2-start2` pixels is written followed
by a forward skip of `spp*(d0 - (stop1-start1))` scalars (no skip after the
last row). -/
def writeManualScalar (c : WriterCore) (s1 e1 s2 e2 : Nat) (data : Nat → Nat → Nat → Int)
    (f : Nat → Int) : Nat → Int :=
  let spp := if c.shape3 then 2 else 1
  let base := spp * (c.d0 * s1 + s2)
  let h := e1 - s1
  let w := e2 - s2
  if s1 = 0 ∧ e1 = c.d0 then
    fun k =>
      if base ≤ k ∧ k < base + h * w * spp then
        let j := k - base
        data (j / (w * spp)) (j % (w * spp) / spp) (j % spp)
      else f k
  else
    let rowLen := w * spp
    let pitch := rowLen + spp * (c.d0 - h)
    fun k =>
      if base ≤ k ∧ (k - base) / pitch < h ∧ (k - base) % pitch < rowLen then
        data ((k - base) / pitch) ((k - base) % pitch / spp) ((k - base) % pitch % spp)
      else f k

/-- `BIPWriter._call(start1, stop1, start2, stop2, data)`: dispatch on
`self._memory_map`.  The mapped assignment uses three indices, which on the
2-D map built for `complex_type = False` raises `IndexError` before anything
is written; on the 3-D map it assigns the window.  With no map the manual
row-writing fallback runs on `self._fid` (open whenever the map is absent
after a successful construction). -/
def writerUnderscoreCall (s : BIPWriterState) (s1 e1 s2 e2 : Nat)
    (data : Nat → Nat → Nat → Int) (f : Nat → Int) : (Nat → Int) × Option CallError :=
  if s.memory_map.isSome then
    if s.core.shape3 then (writeMemoryMap3 s.core s1 e1 s2 e2 data f, none)
    else (f, some CallError.indexError)
  else (writeManualScalar s.core s1 e1 s2 e2 data f, none)

/-- `data.astype(numpy.complex64)` on a complex array: the float64 components
are rounded to float32.  The rounding itself is IEEE-754 float arithmetic,
abstracted as the elementwise map `cast`. -/
def castC64 (cast : Int → Int) (d : NDArr) : NDArr :=
  { d with dtype := NPDType.complex64,
           re := fun r c => cast (d.re r c),
           im := fun r c => cast (d.im r c) }

/-- The `complex_type is True` branch of `BIPWriter.__call__`: reject a
non-complex dtype, cast complex128 down to complex64, then
`data.view(numpy.float32).reshape((h, w, 2))`: the C-contiguous complex
buffer is the interleaved component stream
`re(0,0), im(0,0), re(0,1), im(0,1), ...`, regrouped in threes of indices
`(r, c, b) -> stream[(r*w + c)*2 + b]`. -/
def complexTrueView (cast : Int → Int) (data : NDArr) :
    Except CallError (Nat → Nat → Nat → Int) :=
  if ¬(data.dtype = NPDType.complex64 ∨ data.dtype = NPDType.complex128) then
    .error (.badComplexDtype data.dtype)
  else
    let d := if data.dtype ≠ NPDType.complex64 then castC64 cast data else data
    .ok (fun r c b =>
      let k := (r * d.w + c) * 2 + b
      (if k % 2 = 0 then d.re else d.im) (k / 2 / d.w) (k / 2 % d.w))

/-- `BIPWriter.__call__(data, start_indices)`: compute the window bounds from
`start_indices` and `data.shape`, then branch on `self._complex_type`
exactly as the source does (`False`: dtype must equal the declared raw type;
callable: the transform output dtype must equal the declared raw type;
`True`: the complex view path).  The result pairs the file contents after the
call with the raised error, if any; an error leaves the file untouched. -/
def bipWriterCall (cast : Int → Int) (s : BIPWriterState) (data : NDArr)
    (startIndices : Nat × Nat) (f : Nat → Int) : (Nat → Int) × Option CallError :=
  let start1 := startIndices.1
  let stop1 := startIndices.1 + data.h
  let start2 := startIndices.2
  let stop2 := startIndices.2 + data.w
  match s.core.complexType with
  | ComplexTypeParam.boolFalse =>
    if data.dtype ≠ s.core.dataType then
      (f, some (CallError.typeMismatch s.core.dataType data.dtype))
    else writerUnderscoreCall s start1 stop1 start2 stop2 (fun r c _ => data.re r c) f
  | ComplexTypeParam.transform t =>
    let newData := t data
    if newData.dtype ≠ s.core.dataType then
      (f, some (CallError.typeMismatch s.core.dataType newData.dtype))
    else
      writerUnderscoreCall s start1 stop1 start2 stop2
        (fun r c b => if b = 0 then newData.re r c else newData.im r c) f
  | ComplexTypeParam.boolTrue =>
    match complexTrueView cast data with
    | .error e => (f, some e)
    | .ok v => writerUnderscoreCall s start1 stop1 start2 stop2 v f

/-- One file-handle operation issued by the manual write path. -/
inductive IOOp where
  /-- `self._fid.seek(pos)` (absolute, in bytes) -/
  | seek (pos : Int)
  /-- `self._fid.seek(delta, os.SEEK_CUR)` (relative, in bytes) -/
  | seekCur (delta : Int)
  /-- `tofile` of `nbytes` bytes -/
  | write (nbytes : Int)
deriving DecidableEq

/-- The exact operation sequence the manual branch of `BIPWriter._call`
issues on `self._fid`: the initial absolute seek, then either one contiguous
block write (when the write covers the whole first axis extent) or one write
per row with a relative seek of `element_size*(data_size[0]-(stop1-start1))`
bytes after every row but the last. -/
def writerManualOps (c : WriterCore) (s1 e1 s2 e2 : Nat) : List IOOp :=
  let element_size : Int := (c.dataType.itemsize : Int) * (if c.shape3 then 2 else 1)
  let stride : Int := element_size * c.d0
  let first := IOOp.seek ((c.dataOffset : Int) + stride * s1 + element_size * s2)
  if s1 = 0 ∧ e1 = c.d0 then
    [first, IOOp.write (((e1 - s1) * (e2 - s2) : Nat) * element_size)]
  else
    let skip := element_size * ((c.d0 : Int) - ((e1 : Int) - (s1 : Int)))
    first :: (List.range (e1 - s1)).flatMap (fun i =>
      IOOp.write (((e2 - s2 : Nat) : Int) * element_size) ::
        (if i < (e1 - s1) - 1 then [IOOp.seekCur skip] else []))

/-- Modelled from the spec: the sentinel resolution rule of the
RangeNormalizer (the range handling of `BaseChipper` lives in
`sarpy/io/complex/base.py`, which is not among the provided sources):
`stop == -1 and step < 0` resolves `stop` to `-1` (traversal down to and
including index 0) and `stop == -1 and step > 0` resolves `stop` to the axis
length `L`; any other `stop` is used verbatim. -/
def resolveStop (L : Nat) (stop step : Int) : Int :=
  if stop = -1 ∧ step < 0 then -1
  else if stop = -1 ∧ 0 < step then (L : Int)
  else stop

/-- The seek position the spec prescribes for the manual read path, for the
refinement comparison with `readFileSeekPos`: the spec's words are
`byte_offset + row*row_stride + first_requested_col*element_size` with
`row_stride = element_size * raw_dim1_length` where `raw_dim1_length` is "the
fixed per-row extent", i.e. the number of pixels stored per row
(`shape1`). -/
def specSeekPos (p : ChipperParams) (rr cc : Int) : Int :=
  p.dataOffset + rr * ((p.itemsize * p.bands : Nat) * p.shape1) + cc * (p.itemsize * p.bands : Nat)

/-- The between-rows forward seek the spec prescribes for the manual write
path, for the refinement comparison with `writerManualOps`:
`element_size * (raw_dim1_length - written_width)` where `raw_dim1_length` is
the fixed per-row extent (`d1`) and `written_width` is the number of pixels
written per row (`stop2 - start2`). -/
def specRowSkip (c : WriterCore) (s1 e1 s2 e2 : Nat) : Int :=
  let element_size : Int := (c.dataType.itemsize : Int) * (if c.shape3 then 2 else 1)
  element_size * ((c.d1 : Int) - ((e2 : Int) - (s2 : Int)))

/-- Length of the descending arange from `hi` down to (and including) `lo`. -/
theorem arangeLen_down (lo hi : Nat) (h : lo ≤ hi) :
    arangeLen hi ((lo : Int) - 1) (-1) = hi - lo + 1 := by
  unfold arangeLen
  norm_num
  omega

/-- Length of the ascending arange from `lo` up to (and including) `hi`. -/
theorem arangeLen_up (lo hi : Nat) :
    arangeLen lo ((hi : Int) + 1) 1 = hi + 1 - lo := by
  unfold arangeLen
  norm_num

/-- The descending arange over `lo..hi` is the reverse of the ascending one. -/
theorem arange_neg_one_reverse (lo hi : Nat) (h : lo ≤ hi) :
    arange hi ((lo : Int) - 1) (-1) = (arange lo ((hi : Int) + 1) 1).reverse := by
  apply List.ext_getElem
  · simp only [arange, List.length_reverse, List.length_map, List.length_range,
      arangeLen_down lo hi h, arangeLen_up lo hi]
    omega
  · intro i hi1 hi2
    simp only [arange, List.length_map, List.length_range, arangeLen_down lo hi h] at hi1
    simp only [arange, List.getElem_reverse, List.getElem_map, List.getElem_range,
      List.length_map, List.length_range, arangeLen_down lo hi h, arangeLen_up lo hi]
    omega

/-- The column indices `_read_memory_map` uses for the descending request
`(hi, lo-1, -1)` (which is the sentinel request `(hi, -1, -1)` when `lo = 0`)
are exactly the reverse of those of the ascending request `(lo, hi+1, 1)`,
for any in-bounds `lo ≤ hi < L`. -/
theorem memmapAxisIdx_neg_one_reverse (L lo hi : Nat) (h1 : lo ≤ hi) (h2 : hi < L) :
    memmapAxisIdx L ⟨(hi : Int), (lo : Int) - 1, -1⟩
      = (memmapAxisIdx L ⟨(lo : Int), (hi : Int) + 1, 1⟩).reverse := by
  have hR : memmapAxisIdx L ⟨(lo : Int), (hi : Int) + 1, 1⟩ = arange lo ((hi : Int) + 1) 1 := by
    simp only [memmapAxisIdx, pySliceIdx]
    rw [if_neg (by omega : ¬((hi : Int) + 1 = -1 ∧ (1 : Int) < 0)),
      if_pos (by norm_num : (0 : Int) < 1),
      if_neg (by omega : ¬((lo : Int) < 0)), if_neg (by omega : ¬((hi : Int) + 1 < 0)),
      min_eq_left (by omega : (lo : Int) ≤ (L : Int)),
      min_eq_left (by omega : (hi : Int) + 1 ≤ (L : Int))]
  rw [hR]
  by_cases hlo : lo = 0
  · subst hlo
    simp only [memmapAxisIdx, pySliceOpenNeg]
    rw [if_pos (by norm_num : ((0 : Nat) : Int) - 1 = -1 ∧ (-1 : Int) < 0),
      if_neg (by omega : ¬((hi : Int) < 0)),
      min_eq_left (by omega : (hi : Int) ≤ (L : Int) - 1)]
    have := arange_neg_one_reverse 0 hi (Nat.zero_le hi)
    norm_num at this ⊢
    exact this
  · simp only [memmapAxisIdx, pySliceIdx]
    rw [if_neg (by omega : ¬((lo : Int) - 1 = -1 ∧ (-1 : Int) < 0)),
      if_neg (by norm_num : ¬((0 : Int) < -1)),
      if_neg (by omega : ¬((hi : Int) < 0)), if_neg (by omega : ¬((lo : Int) - 1 < 0)),
      min_eq_left (by omega : (hi : Int) ≤ (L : Int) - 1),
      min_eq_left (by omega : (lo : Int) - 1 ≤ (L : Int) - 1)]
    exact arange_neg_one_reverse lo hi h1

/-- Reversing the column index list reverses each row of the materialised
sub-view. -/
theorem mmSlice_reverse (p : ChipperParams) (f : Nat → Int) (i1 i2 : List Int) :
    mmSlice p f i1 i2.reverse = (mmSlice p f i1 i2).map List.reverse := by
  simp [mmSlice, List.map_map, Function.comp, List.map_reverse]

/-- C1.  The claim states that `BIPChipper._read_file` returns an array
identical to `BIPChipper._read_memory_map` for every in-bounds window.  The
code refutes it: on a 2-by-2 single-band byte raster holding `0,1,2,3` with no
offset, the single-row window `(0,1,1) x (0,2,1)` reads `[[0, 1]]` through the
memory map but `[[0, 0]]` through the manual path (the manual path sizes its
per-row run from `range1` and broadcasts a single pixel across the columns),
and on the full 2-by-2 window the manual path raises a broadcast `ValueError`
where the mapped path returns the raster. -/
theorem claim_C1_backend_divergence :
    readMemoryMap ⟨2, 2, 1, 1, 0⟩ (fun k => (k : Int)) ⟨0, 1, 1⟩ ⟨0, 2, 1⟩ = [[[0], [1]]]
    ∧ readFile ⟨2, 2, 1, 1, 0⟩ (fun k => (k : Int)) ⟨0, 1, 1⟩ ⟨0, 2, 1⟩ = .ok [[[0], [0]]]
    ∧ readMemoryMap ⟨2, 2, 1, 1, 0⟩ (fun k => (k : Int)) ⟨0, 2, 1⟩ ⟨0, 2, 1⟩
        = [[[0], [1]], [[2], [3]]]
    ∧ readFile ⟨2, 2, 1, 1, 0⟩ (fun k => (k : Int)) ⟨0, 2, 1⟩ ⟨0, 2, 1⟩
        = .error ReadError.broadcastMismatch := by
  refine ⟨by decide, by rfl, by decide, by rfl⟩

/-- C2.  The claim states the write-then-read round trip is the identity under
either backend.  Evaluating the code on a 2-by-2 raster with
`v(r, c) = r*2 + c` and a file previously holding `-1` everywhere: the manual
full-block write stores `v` correctly and the mapped read returns `v`
bit-identically, but the manual read of the same window raises a broadcast
`ValueError`, and the mapped write path raises `IndexError` outright (three
indices into the 2-D memory map built for `complex_type = False`), leaving
the file untouched.  So the round trip holds only for the manual-write /
mapped-read pairing, refuting the claim. -/
theorem claim_C2_round_trip_divergence :
    (bipWriterCall id ⟨⟨2, 2, NPDType.int16, ComplexTypeParam.boolFalse, 0, false⟩, none, some ()⟩
        ⟨NPDType.int16, 2, 2, fun r c => (r * 2 + c : Int), fun _ _ => 0⟩ (0, 0) (fun _ => -1)).2
      = none
    ∧ readMemoryMap ⟨2, 2, 1, 2, 0⟩
        (bipWriterCall id ⟨⟨2, 2, NPDType.int16, ComplexTypeParam.boolFalse, 0, false⟩, none, some ()⟩
          ⟨NPDType.int16, 2, 2, fun r c => (r * 2 + c : Int), fun _ _ => 0⟩ (0, 0) (fun _ => -1)).1
        ⟨0, 2, 1⟩ ⟨0, 2, 1⟩ = [[[0], [1]], [[2], [3]]]
    ∧ readFile ⟨2, 2, 1, 2, 0⟩
        (bipWriterCall id ⟨⟨2, 2, NPDType.int16, ComplexTypeParam.boolFalse, 0, false⟩, none, some ()⟩
          ⟨NPDType.int16, 2, 2, fun r c => (r * 2 + c : Int), fun _ _ => 0⟩ (0, 0) (fun _ => -1)).1
        ⟨0, 2, 1⟩ ⟨0, 2, 1⟩ = .error ReadError.broadcastMismatch
    ∧ (bipWriterCall id ⟨⟨2, 2, NPDType.int16, ComplexTypeParam.boolFalse, 0, false⟩, some (), none⟩
        ⟨NPDType.int16, 2, 2, fun r c => (r * 2 + c : Int), fun _ _ => 0⟩ (0, 0) (fun _ => -1)).2
      = some CallError.indexError
    ∧ (bipWriterCall id ⟨⟨2, 2, NPDType.int16, ComplexTypeParam.boolFalse, 0, false⟩, some (), none⟩
        ⟨NPDType.int16, 2, 2, fun r c => (r * 2 + c : Int), fun _ _ => 0⟩ (0, 0) (fun _ => -1)).1
      = (fun _ => -1) := by
  refine ⟨by decide, by decide, by rfl, by decide, rfl⟩

/-- C3.  The claim states the manual read seeks each row to
`data_offset + row*row_stride + first_col*element_size` with
`row_stride = element_size * (per-row extent)` and reads a contiguous run
covering the full requested column span.  On a 2-row, 3-column single-band
byte raster the code seeks row 1 to byte `2` (its stride multiplies
`element_size` by `shape[0] = 2`, the row count) where the claim prescribes
byte `3`, and for the window rows `(1,2,1)`, columns `(0,3,1)` it reads a run
of `1` scalar (`entries_per_row` is taken from `range1`, the row span) where
the claim prescribes the 3-pixel column span. -/
theorem claim_C3_manual_read_layout_divergence :
    readFileSeekPos ⟨2, 3, 1, 1, 0⟩ 1 0 = 2
    ∧ specSeekPos ⟨2, 3, 1, 1, 0⟩ 1 0 = 3
    ∧ (2 : Int) ≠ 3
    ∧ entriesPerRow ⟨1, 2, 1⟩ * (⟨2, 3, 1, 1, 0⟩ : ChipperParams).bands = 1
    ∧ (arange 0 3 1).length = 3
    ∧ (1 : Nat) ≠ 3 := by
  refine ⟨by decide, by decide, by decide, by decide, by decide, by decide⟩

/-- C4.  The claim's structure is what the code does (full-first-axis writes
go out as one contiguous block; otherwise rows are written one at a time with
a forward relative seek between consecutive rows and none after the last),
but the claimed seek distance `element_size*(raw_dim1_length - written_width)`
is not: on a 4-row, 2-column byte raster, writing rows 1..3 at full width, the
code seeks `element_size*(data_size[0] - written_row_count) = 2` bytes between
rows where the claim prescribes
`element_size*(per-row extent - written width) = 0`. -/
theorem claim_C4_manual_write_skip_divergence :
    writerManualOps ⟨4, 2, NPDType.uint8, ComplexTypeParam.boolFalse, 0, false⟩ 1 3 0 2
      = [IOOp.seek 4, IOOp.write 2, IOOp.seekCur 2, IOOp.write 2]
    ∧ specRowSkip ⟨4, 2, NPDType.uint8, ComplexTypeParam.boolFalse, 0, false⟩ 1 3 0 2 = 0
    ∧ (2 : Int) ≠ 0
    ∧ writerManualOps ⟨4, 2, NPDType.uint8, ComplexTypeParam.boolFalse, 0, false⟩ 0 4 0 2
      = [IOOp.seek 0, IOOp.write 8] := by
  refine ⟨by decide, by decide, by decide, by decide⟩

/-- C9 counterexample.  The claim states the internal band count is left
unchanged for a caller-supplied transform; the code doubles it for every
complex mode other than `False` (`if self._complex_type is not False:
bands *= 2`), so a chipper constructed with a callable transform and one
declared band uses two internal bands, not one. -/
theorem claim_C9_counterexample :
    chipperBands 1 ComplexMode.transform = 2 ∧ chipperBands 1 ComplexMode.transform ≠ 1 := by
  refine ⟨by decide, by decide⟩

/-- C9 amended.  The internal band count used for the on-disk layout equals
the declared band count doubled whenever any complex composition (adjacent
pair or caller-supplied transform) is requested, and equals the declared band
count unchanged only for complex mode `None`. -/
theorem claim_C9_amended_bands (b : Nat) :
    chipperBands b ComplexMode.adjacent = 2 * b
    ∧ chipperBands b ComplexMode.transform = 2 * b
    ∧ chipperBands b ComplexMode.noComposition = b := by
  refine ⟨?_, ?_, ?_⟩ <;> simp [chipperBands] <;> omega

/-- C5.  Constructing a `BIPWriter` with `complex_type = True` and a declared
raw element type other than `float32` fails with a `ValueError` raised by the
validation prefix of `__init__`, whatever the `data_size` argument; the
result is an error (no writer object) and is independent of whether the
storage acquisition would have succeeded, i.e. the failure happens before any
I/O. -/
theorem claim_C5_complex_true_requires_float32 (dataSize : List Int) (dataType : NPDType)
    (dataOffset : Nat) (mapOk : Bool) (hdt : dataType ≠ NPDType.float32) :
    (∃ e, bipWriterInit dataSize dataType ComplexTypeParam.boolTrue dataOffset mapOk
        = Except.error e)
    ∧ bipWriterInit dataSize dataType ComplexTypeParam.boolTrue dataOffset mapOk
        = bipWriterInit dataSize dataType ComplexTypeParam.boolTrue dataOffset (!mapOk) := by
  have hval : ∃ e, bipWriterValidate dataSize dataType ComplexTypeParam.boolTrue dataOffset
      = Except.error e := by
    unfold bipWriterValidate
    split
    · exact ⟨_, rfl⟩
    · split
      · exact ⟨_, rfl⟩
      · split
        · exact ⟨_, rfl⟩
        · rename_i h3
          exact absurd ⟨rfl, hdt⟩ h3
  obtain ⟨e, he⟩ := hval
  refine ⟨⟨e, ?_⟩, ?_⟩ <;> simp [bipWriterInit, he, Except.map]

/-- Witness for C5 at a concrete input: a 100-by-50 writer declared `float64`
with `complex_type = True`. -/
theorem claim_C5_witness :
    (NPDType.float64 ≠ NPDType.float32)
    ∧ ((∃ e, bipWriterInit [100, 50] NPDType.float64 ComplexTypeParam.boolTrue 0 true
          = Except.error e)
       ∧ bipWriterInit [100, 50] NPDType.float64 ComplexTypeParam.boolTrue 0 true
          = bipWriterInit [100, 50] NPDType.float64 ComplexTypeParam.boolTrue 0 (!true)) :=
  ⟨by decide, claim_C5_complex_true_requires_float32 [100, 50] NPDType.float64 0 true (by decide)⟩

/-- C6.  For a writer whose `complex_type` is `False`, `__call__` raises the
dtype-disagreement `ValueError` exactly when the array's dtype differs from
the declared raw type, and a rejected call leaves the file contents
untouched (the raise precedes `_call`, so no bytes are written).  This holds
for every backend state: when the dtypes agree, whatever `_call` does (the
write, or the `IndexError` of the 2-D mapped path, which also writes
nothing), it is not a type-mismatch error. -/
theorem claim_C6_type_mismatch_iff (cast : Int → Int) (s : BIPWriterState)
    (hs : s.core.complexType = ComplexTypeParam.boolFalse) (data : NDArr)
    (startIndices : Nat × Nat) (f : Nat → Int) :
    (isTypeMismatch (bipWriterCall cast s data startIndices f).2 = true
      ↔ data.dtype ≠ s.core.dataType)
    ∧ (data.dtype ≠ s.core.dataType → (bipWriterCall cast s data startIndices f).1 = f) := by
  have hum : ∀ dat, isTypeMismatch (writerUnderscoreCall s startIndices.1
      (startIndices.1 + data.h) startIndices.2 (startIndices.2 + data.w) dat f).2 = false := by
    intro dat
    unfold writerUnderscoreCall
    by_cases h1 : s.memory_map.isSome <;> by_cases h2 : s.core.shape3 = true <;>
      simp [h1, h2, isTypeMismatch]
  by_cases hd : data.dtype = s.core.dataType
  · have hcall : bipWriterCall cast s data startIndices f
        = writerUnderscoreCall s startIndices.1 (startIndices.1 + data.h) startIndices.2
            (startIndices.2 + data.w) (fun r c _ => data.re r c) f := by
      simp [bipWriterCall, hs, hd]
    rw [hcall]
    exact ⟨by simp [hum, hd], fun h => absurd hd h⟩
  · refine ⟨?_, fun _ => by simp [bipWriterCall, hs, hd]⟩
    simp [bipWriterCall, hs, hd, isTypeMismatch]

/-- Witness for C6 at a concrete input: a float64 array written to a
4-by-4 writer declared `uint8` with `None` complex mode (manual backend, file
holding `7` everywhere). -/
theorem claim_C6_witness :
    ((⟨⟨4, 4, NPDType.uint8, ComplexTypeParam.boolFalse, 0, false⟩, none, some ()⟩ :
        BIPWriterState).core.complexType = ComplexTypeParam.boolFalse)
    ∧ ((isTypeMismatch (bipWriterCall id
          ⟨⟨4, 4, NPDType.uint8, ComplexTypeParam.boolFalse, 0, false⟩, none, some ()⟩
          ⟨NPDType.float64, 1, 1, fun _ _ => 5, fun _ _ => 0⟩ (0, 0) (fun _ => 7)).2 = true
        ↔ (⟨NPDType.float64, 1, 1, fun _ _ => 5, fun _ _ => 0⟩ : NDArr).dtype
            ≠ (⟨⟨4, 4, NPDType.uint8, ComplexTypeParam.boolFalse, 0, false⟩, none, some ()⟩ :
                BIPWriterState).core.dataType)
       ∧ ((⟨NPDType.float64, 1, 1, fun _ _ => 5, fun _ _ => 0⟩ : NDArr).dtype
            ≠ (⟨⟨4, 4, NPDType.uint8, ComplexTypeParam.boolFalse, 0, false⟩, none, some ()⟩ :
                BIPWriterState).core.dataType
          → (bipWriterCall id
              ⟨⟨4, 4, NPDType.uint8, ComplexTypeParam.boolFalse, 0, false⟩, none, some ()⟩
              ⟨NPDType.float64, 1, 1, fun _ _ => 5, fun _ _ => 0⟩ (0, 0) (fun _ => 7)).1
            = (fun _ => 7))) :=
  ⟨rfl, claim_C6_type_mismatch_iff id
    ⟨⟨4, 4, NPDType.uint8, ComplexTypeParam.boolFalse, 0, false⟩, none, some ()⟩ rfl
    ⟨NPDType.float64, 1, 1, fun _ _ => 5, fun _ _ => 0⟩ (0, 0) (fun _ => 7)⟩

/-- C8.  After a successful construction exactly one storage handle is live —
the mapped view when the mapping attempt succeeded, the open file descriptor
when it failed — never both and never neither, for chippers and writers
alike; and the backend the read/write dispatch selects is the one fixed by
that construction outcome (the source never reassigns `_memory_map` or
`_fid` after `__init__`, and the model's read and write operations take the
state immutably). -/
theorem claim_C8_single_storage_handle (p : ChipperParams) (c : WriterCore) (mapOk : Bool) :
    ((bipChipperInit p mapOk).memory_map.isSome ↔ ¬(bipChipperInit p mapOk).fid.isSome)
    ∧ ((bipChipperInit p mapOk).memory_map.isSome ↔ mapOk = true)
    ∧ chipperBackend (bipChipperInit p mapOk)
        = some (if mapOk then Backend.mapped else Backend.manual)
    ∧ ((writerOpen c mapOk).memory_map.isSome ↔ ¬(writerOpen c mapOk).fid.isSome)
    ∧ ((writerOpen c mapOk).memory_map.isSome ↔ mapOk = true)
    ∧ writerBackend (writerOpen c mapOk)
        = some (if mapOk then Backend.mapped else Backend.manual) := by
  cases mapOk <;>
    simp [bipChipperInit, writerOpen, chipperBackend, writerBackend]

/-- C10.  With `complex_type = True`, `__call__` accepts a complex64 array
unchanged and accepts a complex128 array by silently casting it to complex64
(the elementwise float32 rounding `cast`) before decomposing it; in both
cases the float32 view handed to `_call` holds the (post-cast) real part in
band 0 and the imaginary part in band 1 of every in-bounds pixel, and no
error is raised. -/
theorem claim_C10_complex128_silent_downcast (cast : Int → Int) (h w : Nat)
    (re im : Nat → Nat → Int) (r c : Nat) (hc : c < w) :
    (complexTrueView cast ⟨NPDType.complex64, h, w, re, im⟩).map
        (fun v => (v r c 0, v r c 1)) = Except.ok (re r c, im r c)
    ∧ (complexTrueView cast ⟨NPDType.complex128, h, w, re, im⟩).map
        (fun v => (v r c 0, v r c 1)) = Except.ok (cast (re r c), cast (im r c)) := by
  have hw : 0 < w := Nat.lt_of_le_of_lt (Nat.zero_le c) hc
  have hk0 : ((r * w + c) * 2 + 0) / 2 = r * w + c := by omega
  have hk1 : ((r * w + c) * 2 + 1) / 2 = r * w + c := by omega
  have hm0 : ((r * w + c) * 2 + 0) % 2 = 0 := by omega
  have hm1 : ((r * w + c) * 2 + 1) % 2 = 1 := by omega
  have hdiv : (r * w + c) / w = r := by
    rw [Nat.add_comm, Nat.mul_comm, Nat.add_mul_div_left _ _ hw, Nat.div_eq_of_lt hc,
      Nat.zero_add]
  have hmod : (r * w + c) % w = c := by
    rw [Nat.add_comm, Nat.mul_comm, Nat.add_mul_mod_self_left]
    exact Nat.mod_eq_of_lt hc
  have hne : (NPDType.complex128 = NPDType.complex64) = False :=
    eq_false (by decide : ¬(NPDType.complex128 = NPDType.complex64))
  constructor
  · simp only [complexTrueView, castC64]
    norm_num [Except.map, hk0, hk1, hm0, hm1, hdiv, hmod]
  · simp only [complexTrueView, castC64]
    norm_num [Except.map, hne, hk0, hk1, hm0, hm1, hdiv, hmod]

/-- C7.  For any fixed row selection, the memory-mapped read of the
descending column request `(hi, lo-1, -1)` — which is the sentinel request
`(hi, -1, -1)` when `lo = 0`, traversing from `hi` down to and including
index 0 — equals the columnwise reverse of the read of the same columns with
step `+1`; and the spec-modelled RangeNormalizer resolves `stop = -1` to the
axis length for a positive step and to `-1` for a negative step. -/
theorem claim_C7_reversed_read_and_sentinels (p : ChipperParams) (f : Nat → Int)
    (range1 : Rng) (lo hi : Nat) (h1 : lo ≤ hi) (h2 : hi < p.shape1) :
    readMemoryMap p f range1 ⟨(hi : Int), (lo : Int) - 1, -1⟩
      = (readMemoryMap p f range1 ⟨(lo : Int), (hi : Int) + 1, 1⟩).map List.reverse
    ∧ (∀ (L : Nat) (step : Int), 0 < step → resolveStop L (-1) step = (L : Int))
    ∧ (∀ (L : Nat) (step : Int), step < 0 → resolveStop L (-1) step = -1) := by
  refine ⟨?_, ?_, ?_⟩
  · unfold readMemoryMap
    rw [memmapAxisIdx_neg_one_reverse p.shape1 lo hi h1 h2, mmSlice_reverse]
  · intro L step hstep
    unfold resolveStop
    rw [if_neg (by omega : ¬((-1 : Int) = -1 ∧ step < 0)),
      if_pos (⟨rfl, hstep⟩ : (-1 : Int) = -1 ∧ 0 < step)]
  · intro L step hstep
    unfold resolveStop
    rw [if_pos (⟨rfl, hstep⟩ : (-1 : Int) = -1 ∧ step < 0)]

/-- Witness for C7 at a concrete input: a 2-by-3 single-band raster holding
`0..5`, both rows, columns 2 down to 0 via the sentinel request versus
columns 0..2 ascending. -/
theorem claim_C7_witness :
    ((0 : Nat) ≤ 2 ∧ (2 : Nat) < (⟨2, 3, 1, 1, 0⟩ : ChipperParams).shape1)
    ∧ (readMemoryMap ⟨2, 3, 1, 1, 0⟩ (fun k => (k : Int)) ⟨0, 2, 1⟩
          ⟨((2 : Nat) : Int), ((0 : Nat) : Int) - 1, -1⟩
        = (readMemoryMap ⟨2, 3, 1, 1, 0⟩ (fun k => (k : Int)) ⟨0, 2, 1⟩
            ⟨((0 : Nat) : Int), ((2 : Nat) : Int) + 1, 1⟩).map List.reverse
       ∧ (∀ (L : Nat) (step : Int), 0 < step → resolveStop L (-1) step = (L : Int))
       ∧ (∀ (L : Nat) (step : Int), step < 0 → resolveStop L (-1) step = -1)) :=
  ⟨⟨by decide, by decide⟩, claim_C7_reversed_read_and_sentinels ⟨2, 3, 1, 1, 0⟩
    (fun k => (k : Int)) ⟨0, 2, 1⟩ 0 2 (by decide) (by decide)⟩

/-- Witness for C10 at a concrete input: a 1-by-2 array with distinct
components, the cast adding 100, pixel `(0, 1)`. -/
theorem claim_C10_witness :
    ((1 : Nat) < 2)
    ∧ ((complexTrueView (fun x => x + 100)
          ⟨NPDType.complex64, 1, 2, fun _ c => (10 + c : Int), fun _ c => (20 + c : Int)⟩).map
            (fun v => (v 0 1 0, v 0 1 1)) = Except.ok (11, 21)
       ∧ (complexTrueView (fun x => x + 100)
          ⟨NPDType.complex128, 1, 2, fun _ c => (10 + c : Int), fun _ c => (20 + c : Int)⟩).map
            (fun v => (v 0 1 0, v 0 1 1)) = Except.ok (111, 121)) :=
  ⟨by decide, claim_C10_complex128_silent_downcast (fun x => x + 100) 1 2
    (fun _ c => (10 + c : Int)) (fun _ c => (20 + c : Int)) 0 1 (by decide)⟩

end BIP
